import Mathlib

/-!
Verification of the `sensorium` world-model store
(`sensoriumworld_model.py`) against its specification.

The Python source is shallowly embedded below:

* `WorldState` — the four-valued lifecycle enum (`WorldState`, source
  lines 26–31).  The Python `Enum` constructor `WorldState(s)` raises
  `ValueError` on a string that is not among the member values, so its
  embedding `WorldState.ofString?` returns an `Option`.
* `Entity` — the dataclass of source lines 34–43.  The Python field
  types are embedded as follows: `str` as `String`; `float` as `ℚ`
  (the marshaling code never computes with `confidence`, it only passes
  the value through, so exact rationals are a faithful carrier);
  `datetime` as the opaque counter `Timestamp := ℕ`;
  `Dict[str, Any]` properties as an association list whose values the
  marshaling code never inspects; `List[str]` as `List String`.
* `FirestoreDict` — a document dictionary holding the seven keys
  that `to_firestore_dict` writes; an `Option` field models the
  presence or absence of the key (`data.get(k, default)`).
* `Entity.to_firestore_dict` / `Entity.from_firestore_dict` — the
  marshaling pair of source lines 45–68.  `datetime.utcnow()`, the
  default used for a missing `last_updated`, is passed in as the
  explicit argument `now`.
* `WorldModel.update_entity` — the visible head of the method at
  source lines 132–151 (validation, then the in-memory assignment);
  explicit state passing returns the resulting store next to the
  `bool`-or-`ValueError` outcome.
* `initialize_firebase` / `worldModelInit` — the startup path of
  source lines 83–130, over an environment record that abstracts the
  Firebase SDK and the filesystem.
* `VersionedStore` and `RemoteSync` — the optimistic-concurrency
  store and the synchronization engine.  These are absent from the
  visible source (the file is truncated inside `update_entity` and no
  versioning or sync code appears); they are modelled from the spec,
  as marked on each definition.
-/

/-- Timestamps are opaque to the marshaling layer; an abstract counter. -/
abbrev Timestamp := Nat

/-- Property maps (`Dict[str, Any]`): the marshaling layer copies them
through without inspecting the values, so string values are a faithful
carrier. -/
abbrev PropMap := List (String × String)

/-- The four-valued entity lifecycle enum (source lines 26–31). -/
inductive WorldState where
  | STABLE
  | VOLATILE
  | DEGRADING
  | UNKNOWN
deriving DecidableEq, Repr

/-- The `.value` attribute of the Python enum member. -/
def WorldState.value : WorldState → String
  | .STABLE => "stable"
  | .VOLATILE => "volatile"
  | .DEGRADING => "degrading"
  | .UNKNOWN => "unknown"

/-- The Python `Enum` constructor `WorldState(s)`: member lookup by value.
It raises `ValueError` on any other string, embedded as `none`. -/
def WorldState.ofString? (s : String) : Option WorldState :=
  if s = "stable" then some .STABLE
  else if s = "volatile" then some .VOLATILE
  else if s = "degrading" then some .DEGRADING
  else if s = "unknown" then some .UNKNOWN
  else none

/-- The `Entity` dataclass (source lines 34–43). -/
structure Entity where
  id : String
  entity_type : String
  properties : PropMap
  confidence : ℚ
  last_updated : Timestamp
  state : WorldState
  relationships : List String
deriving DecidableEq, Repr

/-- A Firestore document dictionary restricted to the seven keys the
marshaling pair reads and writes; `none` models an absent key. -/
structure FirestoreDict where
  id : Option String
  entity_type : Option String
  properties : Option PropMap
  confidence : Option ℚ
  last_updated : Option Timestamp
  state : Option String
  relationships : Option (List String)
deriving DecidableEq, Repr

/-- `Entity.to_firestore_dict` (source lines 45–55): every key is written. -/
def Entity.to_firestore_dict (e : Entity) : FirestoreDict where
  id := some e.id
  entity_type := some e.entity_type
  properties := some e.properties
  confidence := some e.confidence
  last_updated := some e.last_updated
  state := some e.state.value
  relationships := some e.relationships

/-- `Entity.from_firestore_dict` (source lines 57–68).  Each field is
read with `data.get(key, default)`; the `state` string goes through the
`WorldState` constructor, which raises `ValueError` on an unrecognized
string — embedded as `Except.error`.  `now` stands for the
`datetime.utcnow()` default of `last_updated`. -/
def Entity.from_firestore_dict (now : Timestamp) (data : FirestoreDict) :
    Except String Entity :=
  match WorldState.ofString? (data.state.getD "unknown") with
  | none => .error "ValueError: not a valid WorldState"
  | some st =>
      .ok { id := data.id.getD ""
            entity_type := data.entity_type.getD ""
            properties := data.properties.getD []
            confidence := data.confidence.getD 1
            last_updated := data.last_updated.getD now
            state := st
            relationships := data.relationships.getD [] }

/-- A dictionary in which all seven keys are present, i.e. of the shape
`to_firestore_dict` produces. -/
def FirestoreDict.complete (d : FirestoreDict) : Prop :=
  d.id.isSome ∧ d.entity_type.isSome ∧ d.properties.isSome ∧
  d.confidence.isSome ∧ d.last_updated.isSome ∧ d.state.isSome ∧
  d.relationships.isSome

instance (d : FirestoreDict) : Decidable d.complete := by
  unfold FirestoreDict.complete; infer_instance

/-- First-match lookup in an association list keyed by entity id;
insertion below shadows, so this models a Python dict read. -/
def lookupId {α : Type} (l : List (String × α)) (i : String) : Option α :=
  match l with
  | [] => none
  | (k, v) :: t => if k = i then some v else lookupId t i

/-- Python dict assignment `d[i] = v`, modelled by shadowing insertion. -/
def insertId {α : Type} (l : List (String × α)) (i : String) (v : α) :
    List (String × α) :=
  (i, v) :: l

/-- The in-memory entity table `self.entities` of `WorldModel`. -/
abbrev EntityTable := List (String × Entity)

/-- `WorldModel.update_entity` (source lines 132–151): validates that the
entity has a non-empty `id` and `entity_type`, raising `ValueError`
before the store is touched, then writes the in-memory representation.
The source file is truncated inside the method just after the start of
the assignment `self.entities[entity…`; the tail is modelled from the
spec and the method's own docstring: the in-memory assignment completes
and the method returns `True`, and `ValueError` propagates to the
caller ("Raises: ValueError: If entity validation fails").  The result
pairs the outcome with the resulting store. -/
def update_entity (entities : EntityTable) (entity : Entity) :
    Except String Bool × EntityTable :=
  if entity.id = "" ∨ entity.entity_type = "" then
    (.error "ValueError: Entity must have id and entity_type", entities)
  else
    (.ok true, insertId entities entity.id entity)

/-- The startup environment: the outcomes of the Firebase SDK and
filesystem calls that `WorldModel.__init__` makes, abstracted as data.
`apps_nonempty` is `firebase_admin._apps` being already populated;
`path_exists p` is `os.path.exists(p)`; `certificate_ok p` is
`credentials.Certificate(p)` followed by `initialize_app(cred)`
succeeding; `default_ok` is the no-argument `initialize_app()` (ambient
default credentials) succeeding; `firestore_ok` is `_setup_firestore`'s
client creation and connection test succeeding. -/
structure StartupEnv where
  apps_nonempty : Bool
  path_exists : String → Bool
  certificate_ok : String → Bool
  default_ok : Bool
  firestore_ok : Bool

/-- `WorldModel._initialize_firebase` (source lines 103–118).  The guard
`if credentials_path and os.path.exists(credentials_path)` uses Python
truthiness, so an empty-string path falls through to the default-
credentials branch; any exception is re-raised as `ValueError`. -/
def initialize_firebase (env : StartupEnv)
    (credentials_path : Option String) : Except String Unit :=
  if env.apps_nonempty then .ok ()
  else
    match credentials_path with
    | some p =>
        if p ≠ "" ∧ env.path_exists p then
          if env.certificate_ok p then .ok ()
          else .error "ValueError: Firebase initialization failed"
        else
          if env.default_ok then .ok ()
          else .error "ValueError: Firebase initialization failed"
    | none =>
        if env.default_ok then .ok ()
        else .error "ValueError: Firebase initialization failed"

/-- `WorldModel._setup_firestore` (source lines 120–130): creates the
client and probes the connection, raising `RuntimeError` on failure. -/
def setup_firestore (env : StartupEnv) : Except String Unit :=
  if env.firestore_ok then .ok ()
  else .error "RuntimeError: Firestore connection failed"

/-- `WorldModel.__init__` (source lines 83–101): an empty entity table,
then Firebase initialization, then the Firestore connection; an error
in either step propagates and no initialized store is produced. -/
def worldModelInit (env : StartupEnv)
    (credentials_path : Option String) : Except String EntityTable :=
  match initialize_firebase env credentials_path with
  | .error e => .error e
  | .ok () =>
      match setup_firestore env with
      | .error e => .error e
      | .ok () => .ok []

/-- Modelled from the spec: a version-stamped stored entity.  The
`version` field is the per-entity optimistic-concurrency counter the
spec adds ("version (monotonically increasing integer, added to support
optimistic concurrency absent from source)"); no versioning code exists
in the visible source. -/
structure StoredEntity where
  ent : Entity
  version : Nat
deriving DecidableEq, Repr

/-- Modelled from the spec: the `VersionedStore` in-memory table; the
component itself is absent from the visible source (the file is
truncated inside `update_entity` before any version-control logic). -/
structure VersionedStore where
  entities : List (String × StoredEntity)
deriving DecidableEq, Repr

/-- Modelled from the spec: the result of `upsert`, either the new
stored entity or a `Conflict` carrying the current version. -/
inductive UpsertResult where
  | ok (e : StoredEntity)
  | conflict (current_version : Nat)
deriving DecidableEq, Repr

namespace VersionedStore

/-- Modelled from the spec: `get(id)` returns the current local
snapshot from the in-memory table. -/
def get (s : VersionedStore) (id : String) : Option StoredEntity :=
  lookupId s.entities id

/-- Modelled from the spec: the stored version of `id`, or `0` when the
entity is absent (creation happens "with version=1", so an absent
entity matches `expected_version` zero). -/
def currentVersion (s : VersionedStore) (id : String) : Nat :=
  match s.get id with
  | some e => e.version
  | none => 0

/-- Modelled from the spec:
`upsert(id, mutation, expected_version) -> Result<Entity, Conflict>`,
which "applies mutation only if expected_version matches stored version
(or entity absent and expected_version is zero); on mismatch returns a
Conflict error carrying the current version, never silently
overwrites".  The mutation is the caller's function from the current
local snapshot to the new entity value; a successful write stamps the
next version. -/
def upsert (s : VersionedStore) (id : String)
    (mutation : Option Entity → Entity) (expected_version : Nat) :
    UpsertResult × VersionedStore :=
  let cur := s.currentVersion id
  if expected_version = cur then
    let newEnt : StoredEntity :=
      { ent := mutation ((s.get id).map StoredEntity.ent)
        version := cur + 1 }
    (.ok newEnt, ⟨insertId s.entities id newEnt⟩)
  else
    (.conflict cur, s)

end VersionedStore

/-- Modelled from the spec: the synchronization engine's state machine
`DISCONNECTED → CONNECTING → SYNCED → DEGRADED(queuing) → CONNECTING →
SYNCED …`; no such component exists in the visible source. -/
inductive SyncState where
  | DISCONNECTED
  | CONNECTING
  | SYNCED
  | DEGRADED
deriving DecidableEq, Repr

/-- Modelled from the spec: one queued write, addressed to an entity id. -/
structure QueuedWrite where
  id : String
  payload : Entity
  target_version : Nat
deriving DecidableEq, Repr

/-- Modelled from the spec: the `RemoteSync` engine, absent from the
visible source.  `queue` holds writes not yet acknowledged by the
backend, oldest first; `applied` records, oldest first, the writes the
backend has applied. -/
structure RemoteSync where
  state : SyncState
  queue : List QueuedWrite
  applied : List QueuedWrite
deriving DecidableEq, Repr

namespace RemoteSync

/-- Modelled from the spec: a caller's mutation reaches the engine as a
queued write appended to the tail of the FIFO queue. -/
def enqueue (rs : RemoteSync) (w : QueuedWrite) : RemoteSync :=
  { rs with queue := rs.queue ++ [w] }

/-- Modelled from the spec: "On backend error: transitions to DEGRADED,
retains unacknowledged writes in the queue". -/
def onBackendError (rs : RemoteSync) : RemoteSync :=
  { rs with state := .DEGRADED }

/-- Modelled from the spec: reconnection succeeds and the engine
re-enters SYNCED, keeping the queue intact. -/
def reconnect (rs : RemoteSync) : RemoteSync :=
  { rs with state := .SYNCED }

/-- Modelled from the spec: while SYNCED the engine "drains the write
queue in FIFO order": writes are pushed to the backend one at a time,
head first, each acknowledged write moving to the applied log. -/
def drainLoop (applied : List QueuedWrite) : List QueuedWrite → List QueuedWrite
  | [] => applied
  | w :: rest => drainLoop (applied ++ [w]) rest

/-- Modelled from the spec: the drain loop runs until the queue is
empty. -/
def drain (rs : RemoteSync) : RemoteSync :=
  { state := rs.state, queue := [], applied := drainLoop rs.applied rs.queue }

/-- The sub-sequence of writes addressed to entity id `i`, oldest
first. -/
def perId (l : List QueuedWrite) (i : String) : List QueuedWrite :=
  l.filter (fun w => w.id = i)

end RemoteSync

/-- A sample well-formed entity used as a concrete test input. -/
def sampleEntity : Entity :=
  { id := "e1", entity_type := "sensor", properties := [("temp", "20")],
    confidence := 1, last_updated := 0, state := .STABLE,
    relationships := [] }

/-- The serialized form of `sampleEntity`: a complete dictionary with a
recognized state string. -/
def sampleDict : FirestoreDict := sampleEntity.to_firestore_dict

/-- The empty input dictionary `{}`: every key absent. -/
def emptyDict : FirestoreDict :=
  { id := none, entity_type := none, properties := none,
    confidence := none, last_updated := none, state := none,
    relationships := none }

/-- A complete dictionary whose state string is not a `WorldState`
member value. -/
def c2dict : FirestoreDict :=
  { id := some "e9", entity_type := some "sensor", properties := some [],
    confidence := some 1, last_updated := some 5,
    state := some "corrupted", relationships := some [] }

/-- Another dictionary carrying an unrecognized state string. -/
def c3dict : FirestoreDict :=
  { id := some "e3", entity_type := some "beacon", properties := some [],
    confidence := some 1, last_updated := some 0,
    state := some "glitch", relationships := some [] }

/-- A dictionary with an out-of-range confidence value. -/
def c5dict : FirestoreDict :=
  { id := some "e5", entity_type := some "sensor", properties := some [],
    confidence := some 2, last_updated := some 0,
    state := some "stable", relationships := some [] }

/-- The entity `from_firestore_dict 0 c5dict` produces. -/
def c5entity : Entity :=
  { id := "e5", entity_type := "sensor", properties := [],
    confidence := 2, last_updated := 0, state := .STABLE,
    relationships := [] }

/-- A dictionary with no identity keys and an unrecognized state. -/
def c10dict : FirestoreDict :=
  { id := none, entity_type := none, properties := none,
    confidence := none, last_updated := none, state := some "???",
    relationships := none }

/-- An entity whose `id` is empty, i.e. one `update_entity` must reject. -/
def invalidEntity : Entity :=
  { id := "", entity_type := "sensor", properties := [],
    confidence := 1, last_updated := 0, state := .UNKNOWN,
    relationships := [] }

/-- A startup environment in which the supplied credential path does not
exist on disk but ambient default credentials work. -/
def fallbackEnv : StartupEnv :=
  { apps_nonempty := false, path_exists := fun _ => false,
    certificate_ok := fun _ => false, default_ok := true,
    firestore_ok := true }

/-- A startup environment with no usable credential path at all. -/
def deadEnv : StartupEnv :=
  { apps_nonempty := false, path_exists := fun _ => false,
    certificate_ok := fun _ => false, default_ok := false,
    firestore_ok := true }

/-- Two sample queued writes to the same entity id. -/
def w1 : QueuedWrite := { id := "e1", payload := sampleEntity, target_version := 1 }

/-- Second sample queued write, targeting the next version. -/
def w2 : QueuedWrite := { id := "e1", payload := c5entity, target_version := 2 }

/-- A sync engine caught in the DEGRADED state with two queued writes. -/
def degradedSync : RemoteSync :=
  { state := .DEGRADED, queue := [w1, w2], applied := [] }

theorem WorldState.ofString_value (st : WorldState) :
    WorldState.ofString? st.value = some st := by
  cases st <;> rfl

theorem WorldState.value_ofString {s : String} {st : WorldState}
    (h : WorldState.ofString? s = some st) : st.value = s := by
  unfold WorldState.ofString? at h
  split_ifs at h with h1 h2 h3 h4
  · injection h with h; subst h; simp [WorldState.value, h1]
  · injection h with h; subst h; simp [WorldState.value, h2]
  · injection h with h; subst h; simp [WorldState.value, h3]
  · injection h with h; subst h; simp [WorldState.value, h4]

/-- C8: deserializing an entity's own serialized dictionary yields the
original entity, for every entity and every ambient clock value. -/
theorem C8_deserialize_serialize_roundtrip (now : Timestamp) (e : Entity) :
    Entity.from_firestore_dict now e.to_firestore_dict = .ok e := by
  cases e
  simp [Entity.from_firestore_dict, Entity.to_firestore_dict,
    WorldState.ofString_value]

/-- C9: the serialized dictionary's state field is always the emitting
state's member value, which is one of the four recognized strings, and
the `WorldState` constructor parses it back to the same state. -/
theorem C9_serialized_state_always_recognized (e : Entity) :
    e.to_firestore_dict.state = some e.state.value ∧
    (e.state.value = "stable" ∨ e.state.value = "volatile" ∨
      e.state.value = "degrading" ∨ e.state.value = "unknown") ∧
    WorldState.ofString? e.state.value = some e.state := by
  refine ⟨rfl, ?_, WorldState.ofString_value e.state⟩
  cases e.state <;> simp [WorldState.value]

/-- C2 counterexample: a complete serialized dictionary whose state
string is unrecognized is NOT deserialized with state UNKNOWN — the
`WorldState` constructor raises `ValueError`, so no entity is produced
and no round trip exists. -/
theorem C2_counterexample :
    c2dict.complete ∧ c2dict.state = some "corrupted" ∧
    Entity.from_firestore_dict 0 c2dict =
      .error "ValueError: not a valid WorldState" := by
  refine ⟨by decide, rfl, rfl⟩

/-- C2 (amended): for every dictionary with all seven keys present
whose state string is a recognized `WorldState` value, deserializing
and serializing back reproduces the dictionary exactly. -/
theorem C2_roundtrip_on_recognized_state (now : Timestamp)
    (d : FirestoreDict) (hc : d.complete) (s : String)
    (hs : d.state = some s) (st : WorldState)
    (hst : WorldState.ofString? s = some st) :
    ∃ e, Entity.from_firestore_dict now d = .ok e ∧
      e.to_firestore_dict = d := by
  obtain ⟨h1, h2, h3, h4, h5, h6, h7⟩ := hc
  simp only [Option.isSome_iff_exists] at h1 h2 h3 h4 h5 h7
  obtain ⟨a, ha⟩ := h1
  obtain ⟨b, hb⟩ := h2
  obtain ⟨pp, hp⟩ := h3
  obtain ⟨cc, hcc⟩ := h4
  obtain ⟨tt, ht⟩ := h5
  obtain ⟨rr, hr⟩ := h7
  refine ⟨⟨a, b, pp, cc, tt, st, rr⟩, ?_, ?_⟩
  · simp [Entity.from_firestore_dict, hs, hst, ha, hb, hp, hcc, ht, hr]
  · obtain ⟨i, et, p, c, t, stf, r⟩ := d
    simp only at ha hb hp hcc ht hr hs
    subst ha hb hp hcc ht hr hs
    simp [Entity.to_firestore_dict, WorldState.value_ofString hst]

/-- C2 witness: the round trip at the serialized sample entity. -/
theorem C2_witness :
    ∃ e, Entity.from_firestore_dict 0 sampleDict = .ok e ∧
      e.to_firestore_dict = sampleDict :=
  C2_roundtrip_on_recognized_state 0 sampleDict (by decide) "stable" rfl
    .STABLE rfl

/-- C3 counterexample: deserialization is not total in the state field —
a present but unrecognized state string makes `from_firestore_dict`
raise `ValueError` instead of yielding UNKNOWN. -/
theorem C3_counterexample :
    c3dict.state = some "glitch" ∧
    WorldState.ofString? "glitch" = none ∧
    Entity.from_firestore_dict 0 c3dict =
      .error "ValueError: not a valid WorldState" :=
  ⟨rfl, rfl, rfl⟩

/-- C3 (amended): when the state key is absent the entity's state
defaults to UNKNOWN; when present and unrecognized, deserialization
fails with `ValueError`; when present and recognized, it maps to the
corresponding state. -/
theorem C3_state_defaults_only_when_absent (now : Timestamp)
    (d : FirestoreDict) :
    (d.state = none →
      (Entity.from_firestore_dict now d).toOption.map Entity.state =
        some WorldState.UNKNOWN) ∧
    (∀ s, d.state = some s → WorldState.ofString? s = none →
      Entity.from_firestore_dict now d =
        .error "ValueError: not a valid WorldState") ∧
    (∀ s st, d.state = some s → WorldState.ofString? s = some st →
      (Entity.from_firestore_dict now d).toOption.map Entity.state =
        some st) := by
  refine ⟨?_, ?_, ?_⟩
  · intro h
    simp [Entity.from_firestore_dict, h, WorldState.ofString?,
      Except.toOption]
  · intro s hs hnone
    simp [Entity.from_firestore_dict, hs, hnone]
  · intro s st hs hst
    simp [Entity.from_firestore_dict, hs, hst, Except.toOption]

/-- C3 witness: the empty dictionary deserializes with state UNKNOWN. -/
theorem C3_witness :
    (Entity.from_firestore_dict 0 emptyDict).toOption.map Entity.state =
      some WorldState.UNKNOWN :=
  (C3_state_defaults_only_when_absent 0 emptyDict).1 rfl

/-- C10 counterexample: a dictionary missing both identity keys is not
always deserialized successfully — an unrecognized state string still
makes `from_firestore_dict` fail. -/
theorem C10_counterexample :
    c10dict.id = none ∧ c10dict.entity_type = none ∧
    Entity.from_firestore_dict 0 c10dict =
      .error "ValueError: not a valid WorldState" :=
  ⟨rfl, rfl, rfl⟩

/-- C10 (amended): deserialization performs no identity validation —
whenever the state entry is absent or recognized, a dictionary missing
the id and entity_type keys (the empty dictionary included)
deserializes successfully into an entity whose id and entity_type are
the empty string. -/
theorem C10_no_identity_validation (now : Timestamp) (d : FirestoreDict)
    (hid : d.id = none) (hty : d.entity_type = none)
    (hst : (WorldState.ofString? (d.state.getD "unknown")).isSome) :
    ∃ e, Entity.from_firestore_dict now d = .ok e ∧
      e.id = "" ∧ e.entity_type = "" := by
  obtain ⟨st, hst'⟩ := Option.isSome_iff_exists.mp hst
  refine ⟨⟨"", "", d.properties.getD [], d.confidence.getD 1,
    d.last_updated.getD now, st, d.relationships.getD []⟩, ?_, rfl, rfl⟩
  simp [Entity.from_firestore_dict, hid, hty, hst']

/-- C10 witness: the empty dictionary produces an entity with empty
identity fields. -/
theorem C10_witness :
    ∃ e, Entity.from_firestore_dict 0 emptyDict = .ok e ∧
      e.id = "" ∧ e.entity_type = "" :=
  C10_no_identity_validation 0 emptyDict rfl rfl (by decide)

/-- C5 counterexample: a deserialized entity can carry a confidence of
2, outside the closed interval [0,1] — no clamping is performed. -/
theorem C5_counterexample :
    (Entity.from_firestore_dict 0 c5dict).toOption.map Entity.confidence =
      some 2 ∧ ¬ ((2 : ℚ) ∈ Set.Icc (0 : ℚ) 1) := by
  constructor
  · rfl
  · norm_num [Set.mem_Icc]

/-- C5 (amended): deserialization copies the confidence value through
unchanged (defaulting to 1 when absent); no clamping to [0,1] occurs,
so the invariant holds only when the input is already in range. -/
theorem C5_confidence_passthrough_unclamped (now : Timestamp)
    (d : FirestoreDict) (e : Entity)
    (h : Entity.from_firestore_dict now d = .ok e) :
    e.confidence = d.confidence.getD 1 := by
  unfold Entity.from_firestore_dict at h
  split at h
  · exact Except.noConfusion h
  · injection h with h
    subst h
    rfl

/-- C5 witness: the pass-through at the out-of-range sample input. -/
theorem C5_witness : c5entity.confidence = c5dict.confidence.getD 1 :=
  C5_confidence_passthrough_unclamped 0 c5dict c5entity rfl

/-- C4: an entity with an empty id or an empty entity_type is rejected
by `update_entity` with `ValueError` and the in-memory entity table is
left unchanged. -/
theorem C4_validation_rejects_before_store (entities : EntityTable)
    (e : Entity) (h : e.id = "" ∨ e.entity_type = "") :
    (update_entity entities e).1 =
      .error "ValueError: Entity must have id and entity_type" ∧
    (update_entity entities e).2 = entities := by
  unfold update_entity
  rw [if_pos h]
  exact ⟨rfl, rfl⟩

/-- C4 witness: the empty-id sample entity is rejected and the empty
store is untouched. -/
theorem C4_witness :
    (update_entity [] invalidEntity).1 =
      .error "ValueError: Entity must have id and entity_type" ∧
    (update_entity [] invalidEntity).2 = [] :=
  C4_validation_rejects_before_store [] invalidEntity (Or.inl rfl)

/-- C1: `upsert` is a compare-and-swap — an absent entity has current
version 0; on an expected-version mismatch it returns a Conflict
carrying the current version and leaves the store unchanged; on a match
it applies the caller's mutation, and a subsequent `get` of the same id
returns the new entity stamped with version `expected_version + 1`. -/
theorem C1_upsert_compare_and_swap (s : VersionedStore) (id : String)
    (m : Option Entity → Entity) (v : Nat) :
    (s.get id = none → s.currentVersion id = 0) ∧
    (v ≠ s.currentVersion id →
      (s.upsert id m v).1 = .conflict (s.currentVersion id) ∧
      (s.upsert id m v).2 = s) ∧
    (v = s.currentVersion id →
      ∃ ne, (s.upsert id m v).1 = .ok ne ∧
        ne.ent = m ((s.get id).map StoredEntity.ent) ∧
        ne.version = v + 1 ∧
        ((s.upsert id m v).2).get id = some ne) := by
  refine ⟨?_, ?_, ?_⟩
  · intro h
    simp [VersionedStore.currentVersion, h]
  · intro h
    simp [VersionedStore.upsert, h]
  · intro h
    subst h
    refine ⟨⟨m ((s.get id).map StoredEntity.ent),
      s.currentVersion id + 1⟩, ?_, rfl, rfl, ?_⟩
    · simp [VersionedStore.upsert]
    · simp [VersionedStore.upsert, VersionedStore.get, insertId, lookupId]

/-- C1 witness: on the empty store, an upsert of "e1" expecting
version 1 conflicts with current version 0 and changes nothing, while
an upsert expecting version 0 succeeds and `get` then returns the new
entity at version 1. -/
theorem C1_witness :
    ((VersionedStore.upsert ⟨[]⟩ "e1" (fun _ => sampleEntity) 1).1 =
        .conflict (VersionedStore.currentVersion ⟨[]⟩ "e1") ∧
      (VersionedStore.upsert ⟨[]⟩ "e1" (fun _ => sampleEntity) 1).2 =
        ⟨[]⟩) ∧
    (∃ ne, (VersionedStore.upsert ⟨[]⟩ "e1" (fun _ => sampleEntity) 0).1 =
        .ok ne ∧
      ne.ent = sampleEntity ∧ ne.version = 0 + 1 ∧
      ((VersionedStore.upsert ⟨[]⟩ "e1" (fun _ => sampleEntity) 0).2).get
        "e1" = some ne) :=
  ⟨(C1_upsert_compare_and_swap ⟨[]⟩ "e1" (fun _ => sampleEntity) 1).2.1
      (by decide),
   (C1_upsert_compare_and_swap ⟨[]⟩ "e1" (fun _ => sampleEntity) 0).2.2
      (by decide)⟩

theorem RemoteSync.drainLoop_eq (q : List QueuedWrite) :
    ∀ a : List QueuedWrite, RemoteSync.drainLoop a q = a ++ q := by
  induction q with
  | nil => intro a; simp [RemoteSync.drainLoop]
  | cons w rest ih =>
      intro a
      simp [RemoteSync.drainLoop, ih]

/-- C6 counterexample: a supplied but unresolvable credential path does
not refuse initialization — the code falls back to ambient default
credentials, and with those usable the store initializes. -/
theorem C6_bad_path_falls_back :
    fallbackEnv.path_exists "/missing/creds.json" = false ∧
    worldModelInit fallbackEnv (some "/missing/creds.json") = .ok [] :=
  ⟨rfl, rfl⟩

/-- C6 (amended): startup fails closed when no usable credential path
exists at all — with no app already initialized, no usable supplied
path, and failing ambient default credentials, construction raises
`ValueError`; and a supplied path that does not exist on disk falls
back to ambient default credentials rather than being refused
outright. -/
theorem C6_fail_closed (env : StartupEnv) (cp : Option String) :
    (env.apps_nonempty = false →
      (∀ p, cp = some p →
        ¬(p ≠ "" ∧ env.path_exists p = true ∧
          env.certificate_ok p = true)) →
      env.default_ok = false →
      worldModelInit env cp =
        .error "ValueError: Firebase initialization failed") ∧
    (∀ p, env.apps_nonempty = false → env.path_exists p = false →
      initialize_firebase env (some p) =
        (if env.default_ok then .ok ()
         else .error "ValueError: Firebase initialization failed")) := by
  constructor
  · intro happ hno hdef
    have hfb : initialize_firebase env cp =
        .error "ValueError: Firebase initialization failed" := by
      unfold initialize_firebase
      cases cp with
      | none => simp [happ, hdef]
      | some p =>
          have hnp := hno p rfl
          by_cases hcond : p ≠ "" ∧ env.path_exists p = true
          · have hcert : env.certificate_ok p ≠ true :=
              fun hc => hnp ⟨hcond.1, hcond.2, hc⟩
            simp [happ, hcond.1, hcond.2, hcert]
          · simp [happ, hcond, hdef]
    unfold worldModelInit
    rw [hfb]
  · intro p happ hpe
    unfold initialize_firebase
    rw [happ]
    simp [hpe]

/-- C6 witness: with no usable credential path at all, construction
fails with `ValueError`; and the fallback clause evaluated at the
missing path. -/
theorem C6_witness :
    worldModelInit deadEnv (some "/missing/creds.json") =
      .error "ValueError: Firebase initialization failed" ∧
    initialize_firebase fallbackEnv (some "/missing/creds.json") =
      (if fallbackEnv.default_ok then .ok ()
       else .error "ValueError: Firebase initialization failed") :=
  ⟨(C6_fail_closed deadEnv (some "/missing/creds.json")).1 rfl
      (by intro p hp; cases hp; simp [deadEnv]) rfl,
   (C6_fail_closed fallbackEnv (some "/missing/creds.json")).2
      "/missing/creds.json" rfl rfl⟩

/-- C7: while DEGRADED, enqueuing retains every previously queued write
(the queue is only extended at the tail) and stays DEGRADED; once
reconnection succeeds, draining applies every queued write — none is
lost — and for each entity id the applied writes extend the log in the
queue's original FIFO order. -/
theorem C7_degraded_retention_and_fifo_replay (rs : RemoteSync)
    (w : QueuedWrite) (i : String) (h : rs.state = .DEGRADED) :
    ((rs.enqueue w).queue = rs.queue ++ [w] ∧
      (rs.enqueue w).state = .DEGRADED) ∧
    (rs.reconnect.state = .SYNCED ∧
      (rs.reconnect.drain).queue = [] ∧
      (rs.reconnect.drain).applied = rs.applied ++ rs.queue ∧
      RemoteSync.perId (rs.reconnect.drain).applied i =
        RemoteSync.perId rs.applied i ++ RemoteSync.perId rs.queue i) := by
  refine ⟨⟨rfl, ?_⟩, rfl, rfl, ?_, ?_⟩
  · simp [RemoteSync.enqueue, h]
  · simp [RemoteSync.drain, RemoteSync.reconnect, RemoteSync.drainLoop_eq]
  · simp [RemoteSync.drain, RemoteSync.reconnect, RemoteSync.drainLoop_eq,
      RemoteSync.perId, List.filter_append]

/-- C7 witness: the degraded sample engine with two queued writes to
"e1" — both survive an enqueue, and after reconnection both are applied
to "e1" in their original order. -/
theorem C7_witness :
    ((degradedSync.enqueue w1).queue = degradedSync.queue ++ [w1] ∧
      (degradedSync.enqueue w1).state = .DEGRADED) ∧
    (degradedSync.reconnect.state = .SYNCED ∧
      (degradedSync.reconnect.drain).queue = [] ∧
      (degradedSync.reconnect.drain).applied =
        degradedSync.applied ++ degradedSync.queue ∧
      RemoteSync.perId (degradedSync.reconnect.drain).applied "e1" =
        RemoteSync.perId degradedSync.applied "e1" ++
          RemoteSync.perId degradedSync.queue "e1") :=
  C7_degraded_retention_and_fifo_replay degradedSync w1 "e1" rfl
